import Mathlib

/-!
Verification of sqlalchemy-boilerplate (src/sqlalchemy_boilerplate/boilerplate.py).

The file embeds the two classes Boilerplate and AsyncBoilerplate as pure
Lean functions over an explicit instance state (BPState) and an explicit
effect world (World).  Engine and session objects are identified by natural
numbers allocated from a fresh-id counter; close() and dispose() calls are
recorded in the world; exceptions are values of an inductive type PyExn.
-/

namespace SqlalchemyBoilerplate

/-- Decidable equality of Except values, so that runs of the embedded code
    can be compared on concrete inputs. -/
instance {ε α : Type} [DecidableEq ε] [DecidableEq α] : DecidableEq (Except ε α) :=
  fun x y =>
  match x, y with
  | .ok a, .ok b =>
    if h : a = b then isTrue (by rw [h]) else isFalse (by simp [h])
  | .error a, .error b =>
    if h : a = b then isTrue (by rw [h]) else isFalse (by simp [h])
  | .ok _, .error _ => isFalse (by simp)
  | .error _, .ok _ => isFalse (by simp)

/-- Python str.lower() on the ASCII strings handled here (URL schemes are
    restricted to ASCII scheme characters before lowercasing). -/
def pyLower (s : String) : String := String.mk (s.data.map Char.toLower)

/-- The characters urllib.parse allows in a URL scheme
    (ASCII letters, digits, plus, minus, dot). -/
def schemeChars : List Char :=
  "abcdefghijklmnopqrstuvwxyzABCDEFGHIJKLMNOPQRSTUVWXYZ0123456789+-.".data

/-- Split a character list at the first colon, returning the parts before and
    after it, or none when there is no colon (str.find of urllib). -/
def splitColon : List Char → Option (List Char × List Char)
  | [] => none
  | c :: cs =>
    if c = ':' then some ([], cs)
    else
      match splitColon cs with
      | some (pre, post) => some (c :: pre, post)
      | none => none

/-- urllib.parse removes tab, CR and LF characters from the URL before
    splitting it. -/
def stripTabsNewlines (cs : List Char) : List Char :=
  cs.filter (fun c => !(c == '\t' || c == '\r' || c == '\n'))

/-- The scheme component computed by urllib.parse.urlparse: the text before
    the first colon, lowercased, provided it is nonempty, starts with an ASCII
    letter and contains only scheme characters; otherwise the empty string. -/
def urlparse_scheme (url : String) : String :=
  match splitColon (stripTabsNewlines url.data) with
  | some (pre, _) =>
    if !pre.isEmpty && (pre.headD ' ').isAlpha && pre.all (fun c => schemeChars.contains c) then
      String.mk (pre.map Char.toLower)
    else ("")
  | none => ("")

/-- Python string slicing url[n:], by code points. -/
def pySlice (s : String) (n : Nat) : String := String.mk (s.data.drop n)

/-- Identity of a database-layer error object raised by the driver: an object
    id plus whether the object is an OperationalError (a subclass of
    SQLAlchemyError). -/
structure SqlErr where
  id : Nat
  operational : Bool
deriving DecidableEq

/-- The Python exceptions the embedded code can raise.  sqlAlchemyError models
    a (re-)raised SQLAlchemyError object: the SqlErr is the object identity
    and the Option SqlErr its cause attribute.  runtimeError models
    RuntimeError(error), a freshly constructed exception object wrapping the
    driver error. -/
inductive PyExn
  | valueError (msg : String)
  | attributeError (attr : String)
  | sqlAlchemyError (e : SqlErr) (cause : Option SqlErr)
  | runtimeError (arg : SqlErr) (cause : Option SqlErr)
deriving DecidableEq

/-- The driver error object identity an exception coincides with, when the
    exception is a (re-)raised SQLAlchemyError object itself; RuntimeError
    wrappers and other exceptions are distinct, freshly built objects. -/
def PyExn.sqlObjId : PyExn → Option Nat
  | .sqlAlchemyError e _ => some e.id
  | _ => none

/-- Possible values of the session attribute: Python False, True, None, a
    genuine session object (by id), or some other truthy object that is not a
    session. -/
inductive SessionVal
  | pyFalse
  | pyTrue
  | pyNone
  | obj (id : Nat)
  | otherTruthy (id : Nat)
deriving DecidableEq

/-- Python truthiness of a session attribute value. -/
def SessionVal.truthy : SessionVal → Bool
  | .pyFalse => false
  | .pyNone => false
  | .pyTrue => true
  | .obj _ => true
  | .otherTruthy _ => true

/-- Possible values of the engine attribute: False (Boilerplate initial
    value), None (AsyncBoilerplate initial value), or an engine object. -/
inductive EngineVal
  | pyFalse
  | pyNone
  | obj (id : Nat)
deriving DecidableEq

/-- The attributes of a Boilerplate / AsyncBoilerplate instance that matter
    here.  url is self.url (for the async variant, the rewritten URL);
    staticPool records whether the sqlite branch added poolclass StaticPool
    and check_same_thread False to the engine kwargs. -/
structure BPState where
  url : String
  echo : Bool
  create_tables : Bool
  staticPool : Bool
  session : SessionVal
  engine : EngineVal
deriving DecidableEq

/-- External effects: a fresh-id counter for engine and session objects, the
    session ids on which close() has been called, the engine ids on which
    dispose() has been called, and the ids of errors passed to LOGGER.error. -/
structure World where
  nextId : Nat
  closedSessions : List Nat
  disposedEngines : List Nat
  errorLog : List Nat
deriving DecidableEq

/-- The constructor arguments of either class. -/
structure InitArgs where
  url : String
  echo : Bool
  create_tables : Bool
  session : SessionVal
deriving DecidableEq

/-- The ValueError message for an unsupported URL scheme. -/
def invalidSchemeMsg (scheme : String) : String :=
  "Database can be either \"sqlite\" or \"postgresql\", not: \"" ++ scheme ++ "\""

/-- The ValueError message for session passed as True. -/
def invalidSessionMsg : String := "Session can be either false or AsyncSession"

/-- Failures the database layer can inject during the connect sequence:
    engineFail makes create_engine / create_async_engine raise the given
    SQLAlchemyError, createAllFail makes the metadata create-all step raise
    the given SQLAlchemyError. -/
structure ConnectEnv where
  engineFail : Option SqlErr
  createAllFail : Option SqlErr
deriving DecidableEq

namespace Boilerplate

/-- Boilerplate.__init__: parse the URL scheme, accept postgresql and sqlite
    (adding StaticPool kwargs for sqlite), reject any other scheme with a
    ValueError naming it; then reject session passed as True; store the
    session argument and engine = False. -/
def init (args : InitArgs) : Except PyExn BPState :=
  let parsedScheme := urlparse_scheme args.url
  if pyLower parsedScheme = "postgresql" ∨ pyLower parsedScheme = "sqlite" then
    if args.session = .pyTrue then
      .error (.valueError invalidSessionMsg)
    else
      .ok { url := args.url, echo := args.echo, create_tables := args.create_tables,
            staticPool := (pyLower parsedScheme == "sqlite"),
            session := args.session, engine := .pyFalse }
  else
    .error (.valueError (invalidSchemeMsg parsedScheme))

end Boilerplate

namespace AsyncBoilerplate

/-- The session-argument check and final stores shared by the accepting
    branches of AsyncBoilerplate.__init__. -/
def sessionCheck (args : InitArgs) (newUrl : String) (staticPool : Bool) :
    Except PyExn BPState :=
  if args.session = .pyTrue then
    .error (.valueError invalidSessionMsg)
  else
    .ok { url := newUrl, echo := args.echo, create_tables := args.create_tables,
          staticPool := staticPool, session := args.session, engine := .pyNone }

/-- AsyncBoilerplate.__init__: same scheme validation as the blocking class,
    but the stored URL is rewritten to the async driver by a fixed-width
    slice of the original string: postgresql+asyncpg:// followed by url[13:],
    or sqlite+aiosqlite:// followed by url[9:]. -/
def init (args : InitArgs) : Except PyExn BPState :=
  let parsedScheme := urlparse_scheme args.url
  if pyLower parsedScheme = "postgresql" then
    sessionCheck args ("postgresql+asyncpg://" ++ pySlice args.url 13) false
  else if pyLower parsedScheme = "sqlite" then
    sessionCheck args ("sqlite+aiosqlite://" ++ pySlice args.url 9) true
  else
    .error (.valueError (invalidSchemeMsg parsedScheme))

end AsyncBoilerplate

/-- A row produced by query execution: an ordered tuple of column values. -/
abbrev Row := List String

/-- How the consumer drives the row generator: iterate it to exhaustion,
    close it after n rows (the consuming loop terminates early), or throw an
    error into it after n rows (an error raised mid-iteration). -/
inductive Consumer
  | exhaust
  | stopAfter (n : Nat)
  | throwAfter (n : Nat)
deriving DecidableEq

/-- Observable events of one execute call: entering the transactional scope
    obtained from engine.begin() on the given engine object, yielding a row,
    and the scope exiting (the with-blocks unwinding). -/
inductive Event
  | beginScope (engineId : Nat)
  | yieldRow (r : Row)
  | endScope (engineId : Nat)
deriving DecidableEq

/-- The rows actually pulled out of the generator by a consumer. -/
def consumedRows (rows : List Row) : Consumer → List Row
  | .exhaust => rows
  | .stopAfter n => rows.take n
  | .throwAfter n => rows.take n

namespace Boilerplate

/-- The finally clause of Boilerplate.connect: self.session.close() with
    AttributeError swallowed, so close is recorded only when the current
    session attribute is a genuine session object. -/
def finallyClose (w : World) (s : SessionVal) : World :=
  match s with
  | .obj sid => { w with closedSessions := w.closedSessions ++ [sid] }
  | _ => w

/-- Boilerplate.connect: early return of the existing session when it is
    truthy and force is not set; otherwise create the engine, optionally run
    the create-all step, create and store a new session; a SQLAlchemyError
    from either database step is logged and re-raised as itself with its
    cause set to itself; the finally clause closes whatever self.session
    holds at that point; on success the new session is returned. -/
def connect (env : ConnectEnv) (force : Bool) (st : BPState) (w : World) :
    Except PyExn SessionVal × BPState × World :=
  if st.session.truthy && !force then
    (.ok st.session, st, w)
  else
    match env.engineFail with
    | some e =>
      let w1 := { w with errorLog := w.errorLog ++ [e.id] }
      (.error (.sqlAlchemyError e (some e)), st, finallyClose w1 st.session)
    | none =>
      let st1 := { st with engine := .obj w.nextId }
      let w1 := { w with nextId := w.nextId + 1 }
      match (if st.create_tables then env.createAllFail else none) with
      | some e =>
        let w2 := { w1 with errorLog := w1.errorLog ++ [e.id] }
        (.error (.sqlAlchemyError e (some e)), st1, finallyClose w2 st1.session)
      | none =>
        let sid := w1.nextId
        let st2 := { st1 with session := .obj sid }
        let w2 := { w1 with nextId := w1.nextId + 1 }
        (.ok (.obj sid), st2, finallyClose w2 st2.session)

/-- The engine half of Boilerplate.disconnect: self.engine is skipped only
    when it is None; dispose() on the initial value False raises
    AttributeError. -/
def disposeStep (st : BPState) (w : World) : Except PyExn Unit × BPState × World :=
  match st.engine with
  | .pyNone => (.ok (), st, w)
  | .obj eid => (.ok (), st, { w with disposedEngines := w.disposedEngines ++ [eid] })
  | .pyFalse => (.error (.attributeError ("dispose")), st, w)

/-- Boilerplate.disconnect: self.session.close() unless the session is None,
    then self.engine.dispose() unless the engine is None; close() on a value
    that is not a session object (such as the initial value False) raises
    AttributeError. -/
def disconnect (st : BPState) (w : World) : Except PyExn Unit × BPState × World :=
  match st.session with
  | .pyNone => disposeStep st w
  | .obj sid => disposeStep st { w with closedSessions := w.closedSessions ++ [sid] }
  | _ => (.error (.attributeError ("close")), st, w)

/-- Boilerplate.execute as a trace of the generator: self.engine.begin()
    enters a transactional scope on the engine object, the consumed rows are
    yielded one by one, and the nested with-blocks exit exactly once whether
    the generator is exhausted, closed early, or an error is thrown into it;
    engine.begin on a non-engine value (the initial False) raises
    AttributeError. -/
def execute (st : BPState) (rows : List Row) (c : Consumer) :
    Except PyExn (List Event) :=
  match st.engine with
  | .obj eid =>
    .ok (Event.beginScope eid :: (consumedRows rows c).map Event.yieldRow
          ++ [Event.endScope eid])
  | _ => .error (.attributeError ("begin"))

end Boilerplate

namespace AsyncBoilerplate

/-- AsyncBoilerplate.connect: early return of the existing truthy session
    unless force is set; create the async engine; when create_tables is set,
    run the create-all step inside a nested try that catches only
    OperationalError, logging it and raising RuntimeError(error) from error;
    any other SQLAlchemyError from the sequence reaches the outer handler
    and is logged and re-raised as itself with its cause set to itself; the
    new session is created and stored outside the try, with no finally. -/
def connect (env : ConnectEnv) (force : Bool) (st : BPState) (w : World) :
    Except PyExn SessionVal × BPState × World :=
  if st.session.truthy && !force then
    (.ok st.session, st, w)
  else
    match env.engineFail with
    | some e =>
      (.error (.sqlAlchemyError e (some e)), st,
        { w with errorLog := w.errorLog ++ [e.id] })
    | none =>
      let st1 := { st with engine := .obj w.nextId }
      let w1 := { w with nextId := w.nextId + 1 }
      match (if st.create_tables then env.createAllFail else none) with
      | some e =>
        if e.operational then
          (.error (.runtimeError e (some e)), st1,
            { w1 with errorLog := w1.errorLog ++ [e.id] })
        else
          (.error (.sqlAlchemyError e (some e)), st1,
            { w1 with errorLog := w1.errorLog ++ [e.id] })
      | none =>
        let sid := w1.nextId
        (.ok (.obj sid), { st1 with session := .obj sid },
          { w1 with nextId := w1.nextId + 1 })

/-- The engine half of AsyncBoilerplate.disconnect, identical in structure to
    the blocking variant (the initial engine value here is None, so the
    never-connected case skips dispose). -/
def disposeStep (st : BPState) (w : World) : Except PyExn Unit × BPState × World :=
  match st.engine with
  | .pyNone => (.ok (), st, w)
  | .obj eid => (.ok (), st, { w with disposedEngines := w.disposedEngines ++ [eid] })
  | .pyFalse => (.error (.attributeError ("dispose")), st, w)

/-- AsyncBoilerplate.disconnect: await self.session.close() unless the
    session is None, then await self.engine.dispose() unless the engine is
    None; close() on a value that is not a session object (such as the
    initial value False) raises AttributeError. -/
def disconnect (st : BPState) (w : World) : Except PyExn Unit × BPState × World :=
  match st.session with
  | .pyNone => disposeStep st w
  | .obj sid => disposeStep st { w with closedSessions := w.closedSessions ++ [sid] }
  | _ => (.error (.attributeError ("close")), st, w)

/-- AsyncBoilerplate.execute as a trace of the async generator: the scope is
    entered with engine.begin(), rows come from connection.stream, and the
    async with exits exactly once on exhaustion, early close, or a thrown
    error. -/
def execute (st : BPState) (rows : List Row) (c : Consumer) :
    Except PyExn (List Event) :=
  match st.engine with
  | .obj eid =>
    .ok (Event.beginScope eid :: (consumedRows rows c).map Event.yieldRow
          ++ [Event.endScope eid])
  | _ => .error (.attributeError ("begin"))

end AsyncBoilerplate

/-- The empty effect world: no object allocated, nothing closed or logged. -/
def w0 : World := ⟨0, [], [], []⟩

/-- A world whose fresh-id counter is past the ids of bpConnected. -/
def w2 : World := ⟨2, [], [], []⟩

/-- A connect environment in which no database step fails. -/
def envOk : ConnectEnv := ⟨none, none⟩

/-- The instance state Boilerplate.__init__ produces for url sqlite:// with
    default arguments: session False, engine False. -/
def bpFresh : BPState :=
  { url := "sqlite://", echo := false, create_tables := false, staticPool := true,
    session := .pyFalse, engine := .pyFalse }

/-- The instance state AsyncBoilerplate.__init__ produces for url sqlite://
    with default arguments: session False, engine None, rewritten URL. -/
def asyncFresh : BPState :=
  { url := "sqlite+aiosqlite://", echo := false, create_tables := false, staticPool := true,
    session := .pyFalse, engine := .pyNone }

/-- The asyncFresh state with create_tables set, as produced by construction
    with create_tables=True. -/
def asyncFreshCT : BPState :=
  { url := "sqlite+aiosqlite://", echo := false, create_tables := true, staticPool := true,
    session := .pyFalse, engine := .pyNone }

/-- A connected blocking-variant state: engine object 0, session object 1. -/
def bpConnected : BPState :=
  { url := "sqlite://", echo := false, create_tables := false, staticPool := true,
    session := .obj 1, engine := .obj 0 }

/-- A connected non-blocking-variant state: engine object 0, session object 1. -/
def asyncConnected : BPState :=
  { url := "sqlite+aiosqlite://", echo := false, create_tables := false, staticPool := true,
    session := .obj 1, engine := .obj 0 }

/-- The finally clause of the blocking connect never touches the error log. -/
theorem Boilerplate.finallyClose_errorLog (w : World) (s : SessionVal) :
    (Boilerplate.finallyClose w s).errorLog = w.errorLog := by
  cases s <;> rfl

/-- The success path of Boilerplate.connect: with no early return and no
    injected failure, the engine gets the next fresh id, the session the one
    after, and the finally clause records a close of that new session. -/
theorem Boilerplate.sync_connect_success (env : ConnectEnv) (force : Bool) (st : BPState)
    (w : World) (hskip : (st.session.truthy && !force) = false)
    (hE : env.engineFail = none) (hC : env.createAllFail = none) :
    Boilerplate.connect env force st w =
      (.ok (.obj (w.nextId + 1)),
       { st with engine := .obj w.nextId, session := .obj (w.nextId + 1) },
       { w with nextId := w.nextId + 2,
                closedSessions := w.closedSessions ++ [w.nextId + 1] }) := by
  unfold Boilerplate.connect
  rw [hskip, hE, hC, ite_self]
  rfl

/-- The success path of AsyncBoilerplate.connect: engine gets the next fresh
    id, the session the one after; nothing is closed. -/
theorem AsyncBoilerplate.async_connect_success (env : ConnectEnv) (force : Bool) (st : BPState)
    (w : World) (hskip : (st.session.truthy && !force) = false)
    (hE : env.engineFail = none) (hC : env.createAllFail = none) :
    AsyncBoilerplate.connect env force st w =
      (.ok (.obj (w.nextId + 1)),
       { st with engine := .obj w.nextId, session := .obj (w.nextId + 1) },
       { w with nextId := w.nextId + 2 }) := by
  unfold AsyncBoilerplate.connect
  rw [hskip, hE, hC, ite_self]
  rfl

/-- The create-all failure path of AsyncBoilerplate.connect: the injected
    error is logged, and it is wrapped in RuntimeError exactly when it is an
    OperationalError; otherwise it is re-raised as itself. -/
theorem AsyncBoilerplate.connect_createAll_fail (env : ConnectEnv) (st : BPState)
    (w : World) (e : SqlErr) (hskip : (st.session.truthy && !false) = false)
    (hE : env.engineFail = none) (hct : st.create_tables = true)
    (hC : env.createAllFail = some e) :
    AsyncBoilerplate.connect env false st w =
      (.error (if e.operational then .runtimeError e (some e)
               else .sqlAlchemyError e (some e)),
       { st with engine := .obj w.nextId },
       { w with nextId := w.nextId + 1, errorLog := w.errorLog ++ [e.id] }) := by
  obtain ⟨eid, eop⟩ := e
  unfold AsyncBoilerplate.connect
  rw [hskip, hE, hct, hC]
  cases eop <;> rfl

/-- Dropping the scheme marker: the fixed-width Python slice url[n:] recovers
    exactly the remainder when the URL is scheme ++ :// ++ remainder and n is
    the scheme length plus three. -/
theorem pySlice_marker (s rest : String) (n : Nat) (hlen : s.length + 3 = n) :
    pySlice (s ++ "://" ++ rest) n = rest := by
  subst hlen
  unfold pySlice
  rw [String.data_append, String.data_append]
  have h3 : ("://" : String).data = [':', '/', '/'] := rfl
  have hl : s.length = s.data.length := by cases s; rfl
  rw [h3, hl]
  have hlen2 : s.data.length + 3 = (s.data ++ [':', '/', '/']).length := by
    simp [List.length_append]
  rw [hlen2, List.drop_left]

/-- A yieldRow event is never a scope event, so scope events are not counted
    inside the mapped row block of a trace. -/
theorem count_scope_in_yield (rs : List Row) (ev : Event)
    (hne : ∀ r, Event.yieldRow r ≠ ev) :
    (rs.map Event.yieldRow).count ev = 0 := by
  rw [List.count_eq_zero]
  intro h
  rw [List.mem_map] at h
  obtain ⟨r, _, hr⟩ := h
  exact hne r hr

/-- C1: For every constructor argument list whose session argument is not the
    rejected True placeholder (the session check belongs to claim C9),
    construction of either variant succeeds exactly when the URL scheme
    parsed by urlparse, compared lowercased, is postgresql or sqlite; for any
    other scheme both constructors fail with the ValueError (called
    ConfigurationError in the spec) whose message names the offending parsed scheme, and
    no instance state is produced. -/
theorem construction_succeeds_iff_supported_scheme (args : InitArgs)
    (hsession : args.session ≠ .pyTrue) :
    ((pyLower (urlparse_scheme args.url) = "postgresql" ∨
      pyLower (urlparse_scheme args.url) = "sqlite") →
      (∃ st, Boilerplate.init args = .ok st) ∧
      (∃ st, AsyncBoilerplate.init args = .ok st)) ∧
    (¬(pyLower (urlparse_scheme args.url) = "postgresql" ∨
       pyLower (urlparse_scheme args.url) = "sqlite") →
      Boilerplate.init args =
        .error (.valueError (invalidSchemeMsg (urlparse_scheme args.url))) ∧
      AsyncBoilerplate.init args =
        .error (.valueError (invalidSchemeMsg (urlparse_scheme args.url))) ∧
      invalidSchemeMsg (urlparse_scheme args.url) =
        "Database can be either \"sqlite\" or \"postgresql\", not: \"" ++
          urlparse_scheme args.url ++ "\"") := by
  constructor
  · intro h
    constructor
    · have hB : Boilerplate.init args = .ok
          { url := args.url, echo := args.echo, create_tables := args.create_tables,
            staticPool := (pyLower (urlparse_scheme args.url) == "sqlite"),
            session := args.session, engine := .pyFalse } := by
        unfold Boilerplate.init
        rw [if_pos h, if_neg hsession]
      exact ⟨_, hB⟩
    · rcases h with hp | hs
      · have hA : AsyncBoilerplate.init args = .ok
            { url := "postgresql+asyncpg://" ++ pySlice args.url 13, echo := args.echo,
              create_tables := args.create_tables, staticPool := false,
              session := args.session, engine := .pyNone } := by
          unfold AsyncBoilerplate.init AsyncBoilerplate.sessionCheck
          rw [if_pos hp, if_neg hsession]
        exact ⟨_, hA⟩
      · have hA : AsyncBoilerplate.init args = .ok
            { url := "sqlite+aiosqlite://" ++ pySlice args.url 9, echo := args.echo,
              create_tables := args.create_tables, staticPool := true,
              session := args.session, engine := .pyNone } := by
          unfold AsyncBoilerplate.init AsyncBoilerplate.sessionCheck
          rw [if_neg (by rw [hs]; decide), if_pos hs, if_neg hsession]
        exact ⟨_, hA⟩
  · intro h
    push_neg at h
    obtain ⟨hp, hs⟩ := h
    refine ⟨?_, ?_, rfl⟩
    · unfold Boilerplate.init
      rw [if_neg (by simp [hp, hs])]
    · unfold AsyncBoilerplate.init
      rw [if_neg hp, if_neg hs]

/-- C1 witness: at url mysql://db the hypothesis holds and construction of
    the blocking variant fails with the ValueError naming scheme mysql. -/
theorem construction_succeeds_iff_supported_scheme_witness :
    ((⟨"mysql://db", false, false, .pyFalse⟩ : InitArgs).session ≠ .pyTrue) ∧
    Boilerplate.init ⟨"mysql://db", false, false, .pyFalse⟩ =
      .error (.valueError (invalidSchemeMsg (urlparse_scheme ("mysql://db")))) :=
  ⟨by decide,
   ((construction_succeeds_iff_supported_scheme ⟨"mysql://db", false, false, .pyFalse⟩
      (by decide)).2 (by decide)).1⟩

/-- C2 (code bug): disconnect on an instance that was never connected raises
    AttributeError in both variants.  The guard in disconnect is written
    `is not None`, but the never-connected session attribute holds False, so
    close() is attempted on a bool and raises — contradicting the docstring
    of the method itself (safely disconnect the database) and the spec, which say a
    never-connected or doubly-disconnected instance never raises. -/
theorem disconnect_never_connected_raises :
    Boilerplate.init ⟨"sqlite://", false, false, .pyFalse⟩ = .ok bpFresh ∧
    (Boilerplate.disconnect bpFresh w0).1 = .error (.attributeError ("close")) ∧
    AsyncBoilerplate.init ⟨"sqlite://", false, false, .pyFalse⟩ = .ok asyncFresh ∧
    (AsyncBoilerplate.disconnect asyncFresh w0).1 = .error (.attributeError ("close")) := by
  decide

/-- C3: For either variant with an existing session object, connect without
    force returns that session unchanged and leaves instance state and world
    untouched (idempotent, no side effects, so repeated calls return the same
    handle); connect with force (and no injected failure) creates and stores
    a new engine and a new session distinct from the previous handles. -/
theorem connect_idempotent_and_force_new
    (env : ConnectEnv) (st : BPState) (w : World) (s eo : Nat)
    (hsess : st.session = .obj s) (heng : st.engine = .obj eo)
    (hE : env.engineFail = none) (hC : env.createAllFail = none)
    (hslt : s < w.nextId) (helt : eo < w.nextId) :
    (Boilerplate.connect env false st w = (.ok (.obj s), st, w) ∧
     AsyncBoilerplate.connect env false st w = (.ok (.obj s), st, w)) ∧
    ((Boilerplate.connect env true st w).1 = .ok (.obj (w.nextId + 1)) ∧
     (Boilerplate.connect env true st w).2.1.session = .obj (w.nextId + 1) ∧
     (Boilerplate.connect env true st w).2.1.engine = .obj w.nextId ∧
     (Boilerplate.connect env true st w).2.1.session ≠ st.session ∧
     (Boilerplate.connect env true st w).2.1.engine ≠ st.engine) ∧
    ((AsyncBoilerplate.connect env true st w).1 = .ok (.obj (w.nextId + 1)) ∧
     (AsyncBoilerplate.connect env true st w).2.1.session = .obj (w.nextId + 1) ∧
     (AsyncBoilerplate.connect env true st w).2.1.engine = .obj w.nextId ∧
     (AsyncBoilerplate.connect env true st w).2.1.session ≠ st.session ∧
     (AsyncBoilerplate.connect env true st w).2.1.engine ≠ st.engine) := by
  have hskip : (st.session.truthy && !true) = false := by rw [hsess]; rfl
  have hB := Boilerplate.sync_connect_success env true st w hskip hE hC
  have hA := AsyncBoilerplate.async_connect_success env true st w hskip hE hC
  refine ⟨⟨?_, ?_⟩, ?_, ?_⟩
  · unfold Boilerplate.connect
    rw [hsess]
    rfl
  · unfold AsyncBoilerplate.connect
    rw [hsess]
    rfl
  · rw [hB, hsess, heng]
    refine ⟨rfl, rfl, rfl, ?_, ?_⟩
    · simp only [ne_eq, SessionVal.obj.injEq]
      omega
    · simp only [ne_eq, EngineVal.obj.injEq]
      omega
  · rw [hA, hsess, heng]
    refine ⟨rfl, rfl, rfl, ?_, ?_⟩
    · simp only [ne_eq, SessionVal.obj.injEq]
      omega
    · simp only [ne_eq, EngineVal.obj.injEq]
      omega

/-- C3 witness: on a connected instance (session object 1, engine object 0,
    fresh counter 2), connect without force returns the stored session
    unchanged with no effect. -/
theorem connect_idempotent_and_force_new_witness :
    bpConnected.session = .obj 1 ∧
    Boilerplate.connect envOk false bpConnected w2 = (.ok (.obj 1), bpConnected, w2) :=
  ⟨rfl, (connect_idempotent_and_force_new envOk bpConnected w2 1 0 rfl rfl rfl rfl
      (by decide) (by decide)).1.1⟩

/-- C4 counterexample: with an SQLAlchemyError of object id 7 injected at the
    create_engine step, the exception raised by Boilerplate.connect is that
    very driver error object re-raised (its sqlObjId is 7, the identity of
    the original), with its cause set to itself.  The claim requires a
    wrapper error distinct from the original carrying the original as its
    cause; the code raises the original itself (raise error from error), so
    the claim is false at this input. -/
theorem connect_wrapper_counterexample :
    (Boilerplate.connect ⟨some ⟨7, false⟩, none⟩ false bpFresh w0).1 =
      .error (.sqlAlchemyError ⟨7, false⟩ (some ⟨7, false⟩)) ∧
    PyExn.sqlObjId (.sqlAlchemyError ⟨7, false⟩ (some ⟨7, false⟩)) = some 7 := by
  decide

/-- C4 amended: any SQLAlchemyError injected during the connect sequence
    (engine creation, or the create-all step outside the async OperationalError
    case) is logged and re-raised as the original error object itself with its
    cause attribute set to that same original error; no distinct wrapper
    exception is created. -/
theorem connect_logs_and_reraises_original_error
    (env : ConnectEnv) (st : BPState) (w : World) (e : SqlErr)
    (hs : st.session.truthy = false) :
    (env.engineFail = some e →
      (Boilerplate.connect env false st w).1 = .error (.sqlAlchemyError e (some e)) ∧
      e.id ∈ (Boilerplate.connect env false st w).2.2.errorLog ∧
      (AsyncBoilerplate.connect env false st w).1 = .error (.sqlAlchemyError e (some e)) ∧
      e.id ∈ (AsyncBoilerplate.connect env false st w).2.2.errorLog) ∧
    (env.engineFail = none → st.create_tables = true → env.createAllFail = some e →
      (Boilerplate.connect env false st w).1 = .error (.sqlAlchemyError e (some e)) ∧
      e.id ∈ (Boilerplate.connect env false st w).2.2.errorLog ∧
      (e.operational = false →
        (AsyncBoilerplate.connect env false st w).1 = .error (.sqlAlchemyError e (some e)) ∧
        e.id ∈ (AsyncBoilerplate.connect env false st w).2.2.errorLog)) := by
  have hskip : (st.session.truthy && !false) = false := by rw [hs]; rfl
  constructor
  · intro hE
    have hB : Boilerplate.connect env false st w =
        (.error (.sqlAlchemyError e (some e)), st,
         Boilerplate.finallyClose { w with errorLog := w.errorLog ++ [e.id] } st.session) := by
      unfold Boilerplate.connect
      rw [hskip, hE]
      rfl
    have hA : AsyncBoilerplate.connect env false st w =
        (.error (.sqlAlchemyError e (some e)), st,
         { w with errorLog := w.errorLog ++ [e.id] }) := by
      unfold AsyncBoilerplate.connect
      rw [hskip, hE]
      rfl
    rw [hB, hA]
    refine ⟨rfl, ?_, rfl, ?_⟩
    · rw [Boilerplate.finallyClose_errorLog]
      simp
    · simp
  · intro hE hct hC
    have hB : Boilerplate.connect env false st w =
        (.error (.sqlAlchemyError e (some e)), { st with engine := .obj w.nextId },
         Boilerplate.finallyClose
           { w with nextId := w.nextId + 1, errorLog := w.errorLog ++ [e.id] }
           st.session) := by
      unfold Boilerplate.connect
      rw [hskip, hE, hct, hC]
      rfl
    rw [hB]
    refine ⟨rfl, ?_, ?_⟩
    · rw [Boilerplate.finallyClose_errorLog]
      simp
    · intro hop
      have hA := AsyncBoilerplate.connect_createAll_fail env st w e hskip hE hct hC
      rw [hop] at hA
      rw [hA]
      refine ⟨rfl, ?_⟩
      simp

/-- C4 witness for the amended theorem: a driver error of id 7 injected at
    engine creation on a fresh instance is re-raised as itself with itself as
    cause. -/
theorem connect_logs_and_reraises_original_error_witness :
    bpFresh.session.truthy = false ∧
    (Boilerplate.connect ⟨some ⟨7, true⟩, none⟩ false bpFresh w0).1 =
      .error (.sqlAlchemyError ⟨7, true⟩ (some ⟨7, true⟩)) :=
  ⟨rfl, ((connect_logs_and_reraises_original_error ⟨some ⟨7, true⟩, none⟩ bpFresh w0
      ⟨7, true⟩ rfl).1 rfl).1⟩

/-- C5: On a connected instance of either variant, execute produces a trace
    that opens a transactional scope on the stored engine object (not on the
    session object), yields a prefix of the result rows (lazy, finite,
    single-pass, order preserving), and closes the scope exactly once,
    whether the consumer exhausts the generator, stops early, or throws an
    error mid-iteration. -/
theorem execute_scope_closed_exactly_once
    (st : BPState) (rows : List Row) (c : Consumer) (eid : Nat)
    (heng : st.engine = .obj eid) :
    Boilerplate.execute st rows c =
      .ok (Event.beginScope eid :: (consumedRows rows c).map Event.yieldRow
            ++ [Event.endScope eid]) ∧
    AsyncBoilerplate.execute st rows c =
      .ok (Event.beginScope eid :: (consumedRows rows c).map Event.yieldRow
            ++ [Event.endScope eid]) ∧
    (∃ n, consumedRows rows c = rows.take n) ∧
    (∀ tr, Boilerplate.execute st rows c = .ok tr →
      tr.count (Event.endScope eid) = 1 ∧
      tr.count (Event.beginScope eid) = 1 ∧
      ∀ sid, st.session = .obj sid → sid ≠ eid → Event.beginScope sid ∉ tr) := by
  have hB : Boilerplate.execute st rows c =
      .ok (Event.beginScope eid :: (consumedRows rows c).map Event.yieldRow
            ++ [Event.endScope eid]) := by
    unfold Boilerplate.execute
    rw [heng]
  have hA : AsyncBoilerplate.execute st rows c =
      .ok (Event.beginScope eid :: (consumedRows rows c).map Event.yieldRow
            ++ [Event.endScope eid]) := by
    unfold AsyncBoilerplate.execute
    rw [heng]
  refine ⟨hB, hA, ?_, ?_⟩
  · cases c with
    | exhaust => exact ⟨rows.length, (List.take_length rows).symm⟩
    | stopAfter n => exact ⟨n, rfl⟩
    | throwAfter n => exact ⟨n, rfl⟩
  · intro tr htr
    rw [hB] at htr
    injection htr with htr
    subst htr
    have hcnt := count_scope_in_yield (consumedRows rows c) (Event.endScope eid)
      (fun r => by simp)
    have hcntb := count_scope_in_yield (consumedRows rows c) (Event.beginScope eid)
      (fun r => by simp)
    refine ⟨?_, ?_, ?_⟩
    · simp [List.count_cons, List.count_append, hcnt]
    · simp [List.count_cons, List.count_append, hcntb]
    · intro sid hsid hne
      simp [List.mem_cons, List.mem_append, List.mem_map, hne]

/-- C5 witness: on a connected instance, a consumer that stops after one row
    still produces a trace with the scope opened on the engine and closed. -/
theorem execute_scope_closed_exactly_once_witness :
    bpConnected.engine = .obj 0 ∧
    Boilerplate.execute bpConnected [["a"], ["b"]] (.stopAfter 1) =
      .ok (Event.beginScope 0 ::
            (consumedRows [["a"], ["b"]] (.stopAfter 1)).map Event.yieldRow
            ++ [Event.endScope 0]) :=
  ⟨rfl, (execute_scope_closed_exactly_once bpConnected [["a"], ["b"]]
      (.stopAfter 1) 0 rfl).1⟩

/-- C6 counterexample: a successful connect on a fresh blocking instance
    stores and returns session object 1, and close() has already been called
    on that very handle when connect returns (1 is in closedSessions), so the
    returned handle is not live/open at return time as the claim states; the
    cleanup closes the stored session, not a transient create-tables one. -/
theorem connect_live_session_counterexample :
    (Boilerplate.connect envOk false bpFresh w0).1 = .ok (.obj 1) ∧
    (Boilerplate.connect envOk false bpFresh w0).2.1.session = .obj 1 ∧
    1 ∈ (Boilerplate.connect envOk false bpFresh w0).2.2.closedSessions := by
  decide

/-- C6 amended: on every successful connect of the blocking variant, the
    session created is both stored and returned, and the finally clause calls
    close() on exactly that session before connect returns (closing a
    SQLAlchemy session resets it; it reopens on next use); only one engine
    and one session are allocated, so no transient session exists for the
    create-tables step. -/
theorem connect_closes_the_returned_session
    (env : ConnectEnv) (st : BPState) (w : World)
    (hs : st.session.truthy = false)
    (hE : env.engineFail = none) (hC : env.createAllFail = none) :
    (Boilerplate.connect env false st w).1 = .ok (.obj (w.nextId + 1)) ∧
    (Boilerplate.connect env false st w).2.1.session = .obj (w.nextId + 1) ∧
    (Boilerplate.connect env false st w).2.2.closedSessions =
      w.closedSessions ++ [w.nextId + 1] ∧
    (Boilerplate.connect env false st w).2.2.nextId = w.nextId + 2 := by
  have h := Boilerplate.sync_connect_success env false st w (by rw [hs]; rfl) hE hC
  rw [h]
  exact ⟨rfl, rfl, rfl, rfl⟩

/-- C6 witness for the amended theorem: on the fresh sqlite instance the
    returned session is object 1 and it is recorded as closed by connect. -/
theorem connect_closes_the_returned_session_witness :
    bpFresh.session.truthy = false ∧
    (Boilerplate.connect envOk false bpFresh w0).2.2.closedSessions =
      w0.closedSessions ++ [w0.nextId + 1] :=
  ⟨rfl, (connect_closes_the_returned_session envOk bpFresh w0 rfl rfl rfl).2.2.1⟩

/-- C7 counterexample: the URL sqlite:x is accepted (its parsed scheme is
    sqlite) and its remainder after the scheme marker is x, but the stored
    URL is sqlite+aiosqlite:// with the remainder dropped entirely, because
    the rewrite slices a fixed 9 characters off a URL that has no ://
    marker; so the stored URL is not the async prefix followed by the
    unchanged remainder. -/
theorem async_url_rewrite_counterexample :
    AsyncBoilerplate.init ⟨"sqlite:x", false, false, .pyFalse⟩ =
      .ok { url := "sqlite+aiosqlite://", echo := false, create_tables := false,
            staticPool := true, session := .pyFalse, engine := .pyNone } ∧
    urlparse_scheme ("sqlite:x") = "sqlite" ∧
    ("sqlite+aiosqlite://" : String) ≠ "sqlite+aiosqlite://" ++ "x" ∧
    ("sqlite+aiosqlite://" : String) ≠ "sqlite+aiosqlite://" ++ ":x" := by
  decide

/-- C7 amended: for every accepted URL whose scheme is immediately followed
    by the :// marker (so the prefix before the remainder is exactly 13
    resp. 9 characters), the non-blocking constructor stores the async driver
    prefix followed by the unchanged remainder, as a pure string rewrite at
    construction time. -/
theorem async_url_rewrite_with_marker (s rest : String) (args : InitArgs)
    (hurl : args.url = s ++ "://" ++ rest) (hsession : args.session ≠ .pyTrue) :
    (pyLower (urlparse_scheme args.url) = "postgresql" → s.length = 10 →
      ∃ st, AsyncBoilerplate.init args = .ok st ∧
        st.url = "postgresql+asyncpg://" ++ rest) ∧
    (pyLower (urlparse_scheme args.url) = "sqlite" → s.length = 6 →
      ∃ st, AsyncBoilerplate.init args = .ok st ∧
        st.url = "sqlite+aiosqlite://" ++ rest) := by
  constructor
  · intro hsch hlen
    have hA : AsyncBoilerplate.init args = .ok
        { url := "postgresql+asyncpg://" ++ pySlice args.url 13, echo := args.echo,
          create_tables := args.create_tables, staticPool := false,
          session := args.session, engine := .pyNone } := by
      unfold AsyncBoilerplate.init AsyncBoilerplate.sessionCheck
      rw [if_pos hsch, if_neg hsession]
    refine ⟨_, hA, ?_⟩
    show ("postgresql+asyncpg://" ++ pySlice args.url 13) = "postgresql+asyncpg://" ++ rest
    rw [hurl, pySlice_marker s rest 13 (by omega)]
  · intro hsch hlen
    have hA : AsyncBoilerplate.init args = .ok
        { url := "sqlite+aiosqlite://" ++ pySlice args.url 9, echo := args.echo,
          create_tables := args.create_tables, staticPool := true,
          session := args.session, engine := .pyNone } := by
      unfold AsyncBoilerplate.init AsyncBoilerplate.sessionCheck
      rw [if_neg (by rw [hsch]; decide), if_pos hsch, if_neg hsession]
    refine ⟨_, hA, ?_⟩
    show ("sqlite+aiosqlite://" ++ pySlice args.url 9) = "sqlite+aiosqlite://" ++ rest
    rw [hurl, pySlice_marker s rest 9 (by omega)]

/-- C7 witness for the amended theorem: sqlite:///:memory: is sqlite ++ ://
    ++ /:memory: and is rewritten to sqlite+aiosqlite:// followed by the
    unchanged remainder. -/
theorem async_url_rewrite_with_marker_witness :
    ((⟨"sqlite:///:memory:", false, false, .pyFalse⟩ : InitArgs).url =
      "sqlite" ++ "://" ++ "/:memory:") ∧
    (∃ st, AsyncBoilerplate.init ⟨"sqlite:///:memory:", false, false, .pyFalse⟩ =
        .ok st ∧ st.url = "sqlite+aiosqlite://" ++ "/:memory:") :=
  ⟨by decide,
   (async_url_rewrite_with_marker ("sqlite") ("/:memory:")
      ⟨"sqlite:///:memory:", false, false, .pyFalse⟩ (by decide) (by decide)).2
     (by decide) (by decide)⟩

/-- C8 counterexample: a non-operational SQLAlchemyError (object id 3)
    injected at the async schema-creation sub-step is not wrapped as the
    RuntimeError classification: connect re-raises the SQLAlchemyError object
    itself (its sqlObjId is 3), because the nested handler catches only
    OperationalError — so the classification does depend on the failure
    subtype, not only on where the failure occurs. -/
theorem async_schema_error_subtype_counterexample :
    (AsyncBoilerplate.connect ⟨none, some ⟨3, false⟩⟩ false asyncFreshCT w0).1 =
      .error (.sqlAlchemyError ⟨3, false⟩ (some ⟨3, false⟩)) ∧
    PyExn.sqlObjId (.sqlAlchemyError ⟨3, false⟩ (some ⟨3, false⟩)) = some 3 := by
  decide

/-- C8 amended: a failure during the async schema-creation sub-step is logged
    and is wrapped as RuntimeError (called SchemaProvisioningError in the spec)
    preserving the original as cause exactly when it is an OperationalError;
    any other SQLAlchemyError at that sub-step follows the generic path and
    is re-raised unwrapped, so the classification depends on the failure
    subtype as well as on where it occurs. -/
theorem async_schema_failure_classified_by_subtype
    (env : ConnectEnv) (st : BPState) (w : World) (e : SqlErr)
    (hs : st.session.truthy = false) (hE : env.engineFail = none)
    (hct : st.create_tables = true) (hC : env.createAllFail = some e) :
    (e.operational = true →
      (AsyncBoilerplate.connect env false st w).1 =
        .error (.runtimeError e (some e))) ∧
    (e.operational = false →
      (AsyncBoilerplate.connect env false st w).1 =
        .error (.sqlAlchemyError e (some e))) ∧
    e.id ∈ (AsyncBoilerplate.connect env false st w).2.2.errorLog := by
  have hA := AsyncBoilerplate.connect_createAll_fail env st w e (by rw [hs]; rfl)
    hE hct hC
  rw [hA]
  refine ⟨?_, ?_, ?_⟩
  · intro hop
    rw [hop]
    rfl
  · intro hop
    rw [hop]
    rfl
  · simp

/-- C8 witness for the amended theorem: an OperationalError of id 4 at the
    schema sub-step is wrapped as RuntimeError with itself as cause. -/
theorem async_schema_failure_classified_by_subtype_witness :
    asyncFreshCT.session.truthy = false ∧
    (AsyncBoilerplate.connect ⟨none, some ⟨4, true⟩⟩ false asyncFreshCT w0).1 =
      .error (.runtimeError ⟨4, true⟩ (some ⟨4, true⟩)) :=
  ⟨rfl, (async_schema_failure_classified_by_subtype ⟨none, some ⟨4, true⟩⟩
      asyncFreshCT w0 ⟨4, true⟩ rfl rfl rfl rfl).1 rfl⟩

/-- C9 counterexample: the truthy non-session value otherTruthy 1 (for
    example the integer 1, which is truthy but is not the object True and not
    a session) passes the `session is True` check of both constructors and is
    accepted and stored as the instance session — refuting that no bare
    truthy sentinel other than a genuine session object is accepted. -/
theorem truthy_sentinel_accepted_counterexample :
    Boilerplate.init ⟨"sqlite://", false, false, .otherTruthy 1⟩ =
      .ok { url := "sqlite://", echo := false, create_tables := false,
            staticPool := true, session := .otherTruthy 1, engine := .pyFalse } ∧
    (SessionVal.otherTruthy 1).truthy = true ∧
    AsyncBoilerplate.init ⟨"sqlite://", false, false, .otherTruthy 1⟩ =
      .ok { url := "sqlite+aiosqlite://", echo := false, create_tables := false,
            staticPool := true, session := .otherTruthy 1, engine := .pyNone } := by
  decide

/-- C9 amended: for any accepted scheme, the constructors reject exactly the
    boolean True session argument with the ValueError (called
    ConfigurationError in the spec); every other value — including truthy values that are
    not session objects — is accepted and stored unchanged as the instance
    session. -/
theorem session_check_rejects_exactly_true (args : InitArgs)
    (hsch : pyLower (urlparse_scheme args.url) = "postgresql" ∨
            pyLower (urlparse_scheme args.url) = "sqlite") :
    (args.session = .pyTrue →
      Boilerplate.init args = .error (.valueError invalidSessionMsg) ∧
      AsyncBoilerplate.init args = .error (.valueError invalidSessionMsg)) ∧
    (args.session ≠ .pyTrue →
      (∃ st, Boilerplate.init args = .ok st ∧ st.session = args.session) ∧
      (∃ st, AsyncBoilerplate.init args = .ok st ∧ st.session = args.session)) := by
  constructor
  · intro htrue
    constructor
    · unfold Boilerplate.init
      rw [if_pos hsch, if_pos htrue]
    · rcases hsch with hp | hq
      · unfold AsyncBoilerplate.init AsyncBoilerplate.sessionCheck
        rw [if_pos hp, if_pos htrue]
      · unfold AsyncBoilerplate.init AsyncBoilerplate.sessionCheck
        rw [if_neg (by rw [hq]; decide), if_pos hq, if_pos htrue]
  · intro hne
    constructor
    · have hB : Boilerplate.init args = .ok
          { url := args.url, echo := args.echo, create_tables := args.create_tables,
            staticPool := (pyLower (urlparse_scheme args.url) == "sqlite"),
            session := args.session, engine := .pyFalse } := by
        unfold Boilerplate.init
        rw [if_pos hsch, if_neg hne]
      exact ⟨_, hB, rfl⟩
    · rcases hsch with hp | hq
      · have hA : AsyncBoilerplate.init args = .ok
            { url := "postgresql+asyncpg://" ++ pySlice args.url 13, echo := args.echo,
              create_tables := args.create_tables, staticPool := false,
              session := args.session, engine := .pyNone } := by
          unfold AsyncBoilerplate.init AsyncBoilerplate.sessionCheck
          rw [if_pos hp, if_neg hne]
        exact ⟨_, hA, rfl⟩
      · have hA : AsyncBoilerplate.init args = .ok
            { url := "sqlite+aiosqlite://" ++ pySlice args.url 9, echo := args.echo,
              create_tables := args.create_tables, staticPool := true,
              session := args.session, engine := .pyNone } := by
          unfold AsyncBoilerplate.init AsyncBoilerplate.sessionCheck
          rw [if_neg (by rw [hq]; decide), if_pos hq, if_neg hne]
        exact ⟨_, hA, rfl⟩

/-- C9 witness for the amended theorem: with a supported scheme, passing
    session=True is rejected with the dedicated ValueError. -/
theorem session_check_rejects_exactly_true_witness :
    (pyLower (urlparse_scheme ((⟨"sqlite://", false, false, .pyTrue⟩ : InitArgs).url)) =
        "postgresql" ∨
     pyLower (urlparse_scheme ((⟨"sqlite://", false, false, .pyTrue⟩ : InitArgs).url)) =
        "sqlite") ∧
    Boilerplate.init ⟨"sqlite://", false, false, .pyTrue⟩ =
      .error (.valueError invalidSessionMsg) :=
  ⟨by decide,
   ((session_check_rejects_exactly_true ⟨"sqlite://", false, false, .pyTrue⟩
      (by decide)).1 rfl).1⟩

/-- C10: For either variant, a successful forced reconnect on a connected
    instance overwrites the stored engine and session with fresh handles
    while the old session is not closed and the old engine is not disposed by
    the call (the finally clause of the blocking variant closes only the new session);
    a subsequent disconnect releases exactly the currently stored handles, so
    the handles replaced by the forced reconnect are never released by the
    instance. -/
theorem forced_reconnect_never_releases_old_handles
    (env : ConnectEnv) (st : BPState) (w : World) (s eo : Nat)
    (hsess : st.session = .obj s) (heng : st.engine = .obj eo)
    (hE : env.engineFail = none) (hC : env.createAllFail = none)
    (hslt : s < w.nextId) (helt : eo < w.nextId)
    (hsc : s ∉ w.closedSessions) (hed : eo ∉ w.disposedEngines) :
    ((Boilerplate.connect env true st w).2.1.session = .obj (w.nextId + 1) ∧
     (Boilerplate.connect env true st w).2.1.engine = .obj w.nextId ∧
     s ∉ (Boilerplate.connect env true st w).2.2.closedSessions ∧
     eo ∉ (Boilerplate.connect env true st w).2.2.disposedEngines ∧
     (Boilerplate.disconnect (Boilerplate.connect env true st w).2.1
        (Boilerplate.connect env true st w).2.2).2.2.closedSessions =
       (w.closedSessions ++ [w.nextId + 1]) ++ [w.nextId + 1] ∧
     (Boilerplate.disconnect (Boilerplate.connect env true st w).2.1
        (Boilerplate.connect env true st w).2.2).2.2.disposedEngines =
       w.disposedEngines ++ [w.nextId] ∧
     s ∉ (Boilerplate.disconnect (Boilerplate.connect env true st w).2.1
        (Boilerplate.connect env true st w).2.2).2.2.closedSessions ∧
     eo ∉ (Boilerplate.disconnect (Boilerplate.connect env true st w).2.1
        (Boilerplate.connect env true st w).2.2).2.2.disposedEngines) ∧
    ((AsyncBoilerplate.connect env true st w).2.1.session = .obj (w.nextId + 1) ∧
     (AsyncBoilerplate.connect env true st w).2.1.engine = .obj w.nextId ∧
     s ∉ (AsyncBoilerplate.connect env true st w).2.2.closedSessions ∧
     eo ∉ (AsyncBoilerplate.connect env true st w).2.2.disposedEngines ∧
     (AsyncBoilerplate.disconnect (AsyncBoilerplate.connect env true st w).2.1
        (AsyncBoilerplate.connect env true st w).2.2).2.2.closedSessions =
       w.closedSessions ++ [w.nextId + 1] ∧
     (AsyncBoilerplate.disconnect (AsyncBoilerplate.connect env true st w).2.1
        (AsyncBoilerplate.connect env true st w).2.2).2.2.disposedEngines =
       w.disposedEngines ++ [w.nextId] ∧
     s ∉ (AsyncBoilerplate.disconnect (AsyncBoilerplate.connect env true st w).2.1
        (AsyncBoilerplate.connect env true st w).2.2).2.2.closedSessions ∧
     eo ∉ (AsyncBoilerplate.disconnect (AsyncBoilerplate.connect env true st w).2.1
        (AsyncBoilerplate.connect env true st w).2.2).2.2.disposedEngines) := by
  have hskip : (st.session.truthy && !true) = false := by rw [hsess]; rfl
  have hB := Boilerplate.sync_connect_success env true st w hskip hE hC
  have hA := AsyncBoilerplate.async_connect_success env true st w hskip hE hC
  rw [hB, hA]
  have hnots : s ∉ w.closedSessions ++ [w.nextId + 1] := by
    simp only [List.mem_append, List.mem_singleton]
    push_neg
    exact ⟨hsc, by omega⟩
  have hnots2 : s ∉ (w.closedSessions ++ [w.nextId + 1]) ++ [w.nextId + 1] := by
    simp only [List.mem_append, List.mem_singleton]
    push_neg
    exact ⟨⟨hsc, by omega⟩, by omega⟩
  have hnote : eo ∉ w.disposedEngines ++ [w.nextId] := by
    simp only [List.mem_append, List.mem_singleton]
    push_neg
    exact ⟨hed, by omega⟩
  exact ⟨⟨rfl, rfl, hnots, hed, rfl, rfl, hnots2, hnote⟩,
         ⟨rfl, rfl, hsc, hed, rfl, rfl, hnots, hnote⟩⟩

/-- C10 witness: on a connected instance (session 1, engine 0, counter 2),
    the forced reconnect stores session 3 and engine 2, and leaves the old
    session 1 unclosed. -/
theorem forced_reconnect_never_releases_old_handles_witness :
    bpConnected.session = .obj 1 ∧
    (Boilerplate.connect envOk true bpConnected w2).2.1.session = .obj (w2.nextId + 1) ∧
    1 ∉ (Boilerplate.connect envOk true bpConnected w2).2.2.closedSessions :=
  ⟨rfl,
   (forced_reconnect_never_releases_old_handles envOk bpConnected w2 1 0 rfl rfl rfl rfl
      (by decide) (by decide) (by decide) (by decide)).1.1,
   (forced_reconnect_never_releases_old_handles envOk bpConnected w2 1 0 rfl rfl rfl rfl
      (by decide) (by decide) (by decide) (by decide)).1.2.2.1⟩

end SqlalchemyBoilerplate
